import Mathlib

/-!
Shallow embedding of `src/teliads.py` (teliAdsPy): a data-synchronization job
that fetches ad records from a paginated ads API, enriches each record with a
creation-time lookup, filters by a cutoff date, reshapes the records into rows
and appends them to a spreadsheet.

Modelling conventions:
* HTTP calls are modelled by oracles passed in as parameters: a page request
  consumes the head of a `List Page` of responses; the per-ad creation-time
  lookup is a function `String → Except FetchError (Option DateTime)`.
* Python exceptions become `Except` errors; `raise` is `Except.error`.
* Python `datetime` values (timezone already stripped, as the code does with
  `dt.replace(tzinfo=None)`) are six-field records compared lexicographically.
* JSON scalar values that can appear under the `spend` key are `JVal`
  (null, string, number); numbers are modelled as rationals.
* The Google Sheets tab is a list of rows, each row a list of cells in
  columns A.. (the job only ever touches columns A-F).
-/

/-- A timezone-naive timestamp, as produced by `dt.replace(tzinfo=None)` in
`fetch_ad_creation_time`.  Python compares `datetime` values field by field,
most significant first. -/
structure DateTime where
  year : Nat
  month : Nat
  day : Nat
  hour : Nat
  minute : Nat
  second : Nat
deriving DecidableEq

/-- Python's `<=` on timezone-naive `datetime`: lexicographic comparison of
the fields. -/
def DateTime.leb (a b : DateTime) : Bool :=
  if a.year ≠ b.year then decide (a.year < b.year)
  else if a.month ≠ b.month then decide (a.month < b.month)
  else if a.day ≠ b.day then decide (a.day < b.day)
  else if a.hour ≠ b.hour then decide (a.hour < b.hour)
  else if a.minute ≠ b.minute then decide (a.minute < b.minute)
  else decide (a.second ≤ b.second)

/-- `CUTOFF_DATE = datetime(2024, 9, 1)` from the source. -/
def CUTOFF_DATE : DateTime := ⟨2024, 9, 1, 0, 0, 0⟩

/-- `MAX_RETRIES = 3` from the source. -/
def MAX_RETRIES : Nat := 3

/-- A JSON scalar value as it can appear under the `spend` key of an ad
record: JSON null, a string, or a number (modelled as a rational). -/
inductive JVal where
  | null
  | str (s : String)
  | num (q : ℚ)
deriving DecidableEq

/-- Numeric value of a list of decimal digit characters (most significant
first). -/
def digitsToNat (ds : List Char) : Nat :=
  ds.foldl (fun n c => n * 10 + (c.toNat - '0'.toNat)) 0

/-- Split a character list into its longest prefix of decimal digits and the
rest. -/
def takeDigits (cs : List Char) : List Char × List Char :=
  (cs.takeWhile Char.isDigit, cs.dropWhile Char.isDigit)

/-- Consume an optional leading sign; returns `true` when the sign is `-`. -/
def parseSign : List Char → Bool × List Char
  | '-' :: rest => (true, rest)
  | '+' :: rest => (false, rest)
  | cs => (false, cs)

/-- Exponent part of a float literal: optional `e`/`E`, sign, digits.
Returns `none` when an `e`/`E` is present but not followed by digits
(a parse failure), otherwise the exponent value and the remaining input. -/
def parseExponent (cs : List Char) : Option (Int × List Char) :=
  match cs with
  | 'e' :: rest =>
    let sr := parseSign rest
    let dsr := takeDigits sr.2
    if dsr.1 = [] then none
    else some ((if sr.1 then -(digitsToNat dsr.1 : Int) else (digitsToNat dsr.1 : Int)), dsr.2)
  | 'E' :: rest =>
    let sr := parseSign rest
    let dsr := takeDigits sr.2
    if dsr.1 = [] then none
    else some ((if sr.1 then -(digitsToNat dsr.1 : Int) else (digitsToNat dsr.1 : Int)), dsr.2)
  | _ => some (0, cs)

/-- Python's `float(s)` on a string, modelled for finite decimal literals:
optional surrounding whitespace, optional sign, digits with an optional
fractional part, optional decimal exponent.  `none` models `ValueError`.
(Non-finite literals such as `inf`/`nan` and underscore digit grouping are
outside the model.) -/
def parsePyFloat (s : String) : Option ℚ :=
  let cs0 := s.toList.dropWhile Char.isWhitespace
  let cs1 := (cs0.reverse.dropWhile Char.isWhitespace).reverse
  let sgn := parseSign cs1
  let intP := takeDigits sgn.2
  let fracP :=
    match intP.2 with
    | '.' :: rest => takeDigits rest
    | _ => ([], intP.2)
  if intP.1 = [] ∧ fracP.1 = [] then none
  else
    match parseExponent fracP.2 with
    | none => none
    | some er =>
      if er.2 ≠ [] then none
      else
        let mant : ℚ :=
          (digitsToNat intP.1 : ℚ) + (digitsToNat fracP.1 : ℚ) / ((10 : ℚ) ^ fracP.1.length)
        some ((if sgn.1 then -mant else mant) * (10 : ℚ) ^ er.1)

/-- Python's `float(v)` on a JSON scalar: numbers convert to themselves,
strings are parsed as float literals (`none` models `ValueError`), and
`None` raises `TypeError` (also `none`). -/
def pyFloat (v : JVal) : Option ℚ :=
  match v with
  | JVal.null => none
  | JVal.str s => parsePyFloat s
  | JVal.num q => some q

/-- One raw ad record as returned by the listing (insights) endpoint.
`none` in a field models a missing key (`dict.get` returning its default);
the name fields are modelled as strings when present, and `spend` keeps the
full JSON-scalar generality because the processor's error handling depends
on it. -/
structure AdRecord where
  ad_id : Option String
  campaign_name : Option String
  ad_name : Option String
  spend : Option JVal
deriving DecidableEq

/-- One processed row as appended to `daily_data[date]` by
`process_daily_data` (the `date` itself is the dictionary key). -/
structure Row where
  campaign_name : String
  ad_name : String
  spend : ℚ
  date_start : String
  date_stop : String
deriving DecidableEq

/-- The `daily_data` dictionary: an insertion-ordered association list from
date strings to row lists, as Python dicts are insertion-ordered. -/
def Dict : Type := List (String × List Row)

instance : DecidableEq Dict := by
  unfold Dict
  infer_instance

/-- Python `daily_data.get(date)`: `none` when the key is absent. -/
def dget : Dict → String → Option (List Row)
  | [], _ => none
  | (k, v) :: rest, key => if k = key then some v else dget rest key

/-- Python `daily_data[date] = v`: replace in place when the key exists,
else insert at the end (dict insertion order). -/
def dset : Dict → String → List Row → Dict
  | [], key, v => [(key, v)]
  | (k, w) :: rest, key, v =>
    if k = key then (key, v) :: rest else (k, w) :: dset rest key v

/-- The row built from one API entry in the body of `process_daily_data`:
missing names default to `"Not Available"`; `spend` is
`float(entry.get("spend", 0))` with `TypeError`/`ValueError` caught and
coerced to `0`; `date_start`/`date_stop` are the target date. -/
def processEntry (yesterday : String) (e : AdRecord) : Row :=
  { campaign_name := e.campaign_name.getD "Not Available"
    ad_name := e.ad_name.getD "Not Available"
    spend := (pyFloat (e.spend.getD (JVal.num 0))).getD 0
    date_start := yesterday
    date_stop := yesterday }

/-- One iteration of the loop in `process_daily_data`: ensure the bucket for
the (constant) target date exists — `if not daily_data.get(date)` is also
true for an empty list — then append the entry's row to it. -/
def processStep (yesterday : String) (acc : Dict) (e : AdRecord) : Dict :=
  let acc1 :=
    match dget acc yesterday with
    | none => dset acc yesterday []
    | some l => if l.isEmpty then dset acc yesterday [] else acc
  dset acc1 yesterday ((dget acc1 yesterday).getD [] ++ [processEntry yesterday e])

/-- `process_daily_data` from the source: fold the per-entry step over the
API data, starting from the empty dictionary.  All entries collapse under
the single target-date key. -/
def process_daily_data (yesterday : String) (api_data : List AdRecord) : Dict :=
  api_data.foldl (processStep yesterday) []

/-- Errors that can abort the ads fetch: `FacebookAdsError` raised on an
error envelope in a decoded body, or a transport-level exception from
`requests`. -/
inductive FetchError where
  | apiError (msg : String)
  | transport (msg : String)
deriving DecidableEq

/-- One decoded page body from the insights listing endpoint: the optional
`error` envelope, the `data` array (`[]` when the key is missing), and the
optional `paging.next` URL. -/
structure Page where
  error : Option String
  data : List AdRecord
  next : Option String
deriving DecidableEq

/-- The per-page item loop of `fetch_api_data`: for each ad with a truthy
`ad_id` (present and non-empty), run the creation-time lookup — modelled by
the `lookup` oracle, whose `Except.error` models the (post-retry) lookup
raising — and keep the ad iff the lookup returns a timestamp on or after
`CUTOFF_DATE`.  A raised lookup aborts the whole fetch, discarding every
record accumulated so far. -/
def filterAds (lookup : String → Except FetchError (Option DateTime)) :
    List AdRecord → Except FetchError (List AdRecord)
  | [] => Except.ok []
  | ad :: rest =>
    match ad.ad_id with
    | none => filterAds lookup rest
    | some id =>
      if id = "" then filterAds lookup rest
      else
        match lookup id with
        | Except.error e => Except.error e
        | Except.ok none => filterAds lookup rest
        | Except.ok (some dt) =>
          if DateTime.leb CUTOFF_DATE dt then
            match filterAds lookup rest with
            | Except.error e => Except.error e
            | Except.ok l => Except.ok (ad :: l)
          else filterAds lookup rest

/-- The `while next_page` loop of `fetch_api_data`, one request per
iteration.  The head of `pages` is the decoded body of the current request
(an empty list models the transport layer failing, since the real loop
always either gets a body or raises).  Pairs the outcome with the number of
page requests issued.  An error envelope raises `FacebookAdsError` before
any item of that page is examined; the loop advances while `paging.next` is
present and returns the accumulated records when it is absent. -/
def fetchGo (lookup : String → Except FetchError (Option DateTime)) :
    List Page → List AdRecord → Except FetchError (List AdRecord) × Nat
  | [], _ => (Except.error (FetchError.transport "connection failed"), 1)
  | p :: rest, acc =>
    match p.error with
    | some msg => (Except.error (FetchError.apiError msg), 1)
    | none =>
      match filterAds lookup p.data with
      | Except.error e => (Except.error e, 1)
      | Except.ok kept =>
        match p.next with
        | some _ =>
          let r := fetchGo lookup rest (acc ++ kept)
          (r.1, r.2 + 1)
        | none => (Except.ok (acc ++ kept), 1)

/-- `fetch_api_data` (one non-retried pass): walk the page responses
starting from an empty accumulator. -/
def fetch_api_data (lookup : String → Except FetchError (Option DateTime))
    (pages : List Page) : Except FetchError (List AdRecord) × Nat :=
  fetchGo lookup pages []

/-- The inclusion test `fetch_api_data` applies to one ad record, as a
Boolean: truthy `ad_id`, lookup returned a timestamp, and the timestamp is
on or after `CUTOFF_DATE`. -/
def keepB (lookup : String → Except FetchError (Option DateTime))
    (ad : AdRecord) : Bool :=
  match ad.ad_id with
  | none => false
  | some id =>
    if id = "" then false
    else
      match lookup id with
      | Except.ok (some dt) => DateTime.leb CUTOFF_DATE dt
      | _ => false

/-- A well-formed chain of page responses: every page except the last
supplies a `paging.next` URL, and the last page omits it. -/
def isChain : List Page → Bool
  | [] => false
  | p :: rest =>
    match rest with
    | [] => p.next.isNone
    | _ :: _ => p.next.isSome && isChain rest

/-- The tenacity retry loop with `stop_after_attempt`:  `body k` is the
outcome of the `k`-th invocation of the wrapped function (the external
world may differ between attempts).  Returns the first success, or the
error of the last permitted attempt, paired with the number of invocations
made.  `fuel` is the number of further attempts allowed after the current
one.  (Backoff sleeps are timing, not modelled.) -/
def retryAux {ε α : Type} (body : Nat → Except ε α) :
    Nat → Nat → Except ε α × Nat
  | k, fuel =>
    match body k with
    | Except.ok a => (Except.ok a, 1)
    | Except.error e =>
      match fuel with
      | 0 => (Except.error e, 1)
      | fuel' + 1 =>
        let r := retryAux body (k + 1) fuel'
        (r.1, r.2 + 1)

/-- `@retry(stop=stop_after_attempt(MAX_RETRIES), ...)`: first attempt is
attempt 1, and at most `MAX_RETRIES` attempts are made in total. -/
def retryCall {ε α : Type} (body : Nat → Except ε α) : Except ε α × Nat :=
  retryAux body 1 (MAX_RETRIES - 1)

/-- The decoded body of one response of the per-ad creation-time endpoint:
the optional `error` envelope and the optional `created_time` field
(modelled post-ISO-parse, timezone already stripped; a missing or empty
`created_time` string is `none`). -/
structure CreationResponse where
  error : Option String
  created_time : Option DateTime
deriving DecidableEq

/-- One non-retried attempt of `fetch_ad_creation_time`: a transport-level
exception is re-raised; an error envelope or a missing `created_time`
yields `None` (absent, not an error); otherwise the parsed timestamp is
returned. -/
def fetch_ad_creation_time_once (resp : Except String CreationResponse) :
    Except String (Option DateTime) :=
  match resp with
  | Except.error e => Except.error e
  | Except.ok body =>
    if body.error.isSome then Except.ok none
    else Except.ok body.created_time

/-- `fetch_ad_creation_time` as decorated: the retry wrapper around the
single-attempt body, where `resps k` is the response the network yields to
attempt `k`. -/
def fetch_ad_creation_time (resps : Nat → Except String CreationResponse) :
    Except String (Option DateTime) × Nat :=
  retryCall (fun k => fetch_ad_creation_time_once (resps k))

/-- `fetch_api_data` as decorated: the retry wrapper around a full pass of
the page loop, where `worlds k` is the page-response sequence the network
yields to attempt `k`. -/
def fetch_api_data_retried
    (lookup : String → Except FetchError (Option DateTime))
    (worlds : Nat → List Page) : Except FetchError (List AdRecord) × Nat :=
  retryCall (fun k => (fetchGo lookup (worlds k) []).1)

/-- One spreadsheet cell: the job writes date strings, names, and the
numeric spend. -/
inductive Cell where
  | str (s : String)
  | num (q : ℚ)
deriving DecidableEq

/-- The column-A cell of one sheet row, in the shape the Sheets API returns
it inside `values`: `[]` for an absent or empty cell, a singleton
otherwise. -/
def firstCell (r : List Cell) : List Cell :=
  match r with
  | [] => []
  | c :: _ => if c = Cell.str "" then [] else [c]

/-- Trailing empty entries are not reported by a Sheets `values().get`. -/
def dropTrailingEmpty (l : List (List Cell)) : List (List Cell) :=
  (l.reverse.dropWhile (fun r => r = ([] : List Cell))).reverse

/-- The `values` array a Sheets `values().get` on range `A:A` returns for a
given grid: each row's column-A cell, with trailing empty rows trimmed. -/
def colAResponse (grid : List (List Cell)) : List (List Cell) :=
  dropTrailingEmpty (grid.map firstCell)

/-- `get_next_empty_row`: read the whole of column A and return
`len(values) + 1`. -/
def get_next_empty_row (grid : List (List Cell)) : Nat :=
  (colAResponse grid).length + 1

/-- The flat `rows` list `write_to_sheets` builds from the `daily_data`
dictionary: for every date and entry, the six cells for columns A-F. -/
def rowsFromDict (d : Dict) : List (List Cell) :=
  d.flatMap (fun de =>
    de.2.map (fun e =>
      [Cell.str de.1, Cell.str e.campaign_name, Cell.str e.ad_name,
       Cell.num e.spend, Cell.str e.date_start, Cell.str e.date_stop]))

/-- The components of the A1-notation range string
`f'{tab_name}!A{next_row}:F{next_row + len(rows)}'` (column bounds are
always A and F). -/
structure A1Range where
  tab : String
  startRow : Nat
  endRow : Nat
deriving DecidableEq

/-- The A1 range string itself. -/
def A1Range.render (r : A1Range) : String :=
  r.tab ++ "!A" ++ toString r.startRow ++ ":F" ++ toString r.endRow

/-- Number of sheet rows an A1 range covers (A1 bounds are inclusive). -/
def rangeRowSpan (r : A1Range) : Nat :=
  r.endRow + 1 - r.startRow

/-- A remote spreadsheet operation issued by the writer: the column-A read
of `get_next_empty_row`, or the single bulk `values().update`. -/
inductive SheetOp where
  | getColA (tab : String)
  | update (range : A1Range) (values : List (List Cell))
deriving DecidableEq

/-- `write_to_sheets`: flatten the dictionary into rows; if there are none,
log and return without touching the sheet; otherwise read column A to find
the next empty row and issue one bulk update at
`{tab}!A{next_row}:F{next_row + len(rows)}` with the rows verbatim.
Returns the list of remote operations performed, in order. -/
def write_to_sheets (grid : List (List Cell)) (d : Dict) : List SheetOp :=
  let rows := rowsFromDict d
  if rows = [] then []
  else
    let next_row := get_next_empty_row grid
    [SheetOp.getColA "Sheet1",
     SheetOp.update ⟨"Sheet1", next_row, next_row + rows.length⟩ rows]

/-- Effect of an update's `values` on the grid: write the value rows at
successive 0-based row indices starting at `j`, overwriting what is there
and padding with empty rows when the grid is shorter.  (The job's rows are
exactly the six cells A-F, so whole-row replacement models the update of
range columns A-F.) -/
def writeRows (g : List (List Cell)) (j : Nat) (vs : List (List Cell)) :
    List (List Cell) :=
  match g, j, vs with
  | g, _, [] => g
  | [], 0, v :: vs' => v :: writeRows [] 0 vs'
  | [], j' + 1, vs => ([] : List Cell) :: writeRows [] j' vs
  | _ :: g', 0, v :: vs' => v :: writeRows g' 0 vs'
  | r :: g', j' + 1, vs => r :: writeRows g' j' vs
termination_by g.length + j + vs.length

/-- Effect of one remote operation on the sheet grid: a read changes
nothing; an update with `valueInputOption=RAW` writes the value rows
verbatim starting at the range's first row (A1 rows are 1-based). -/
def applySheetOp (grid : List (List Cell)) : SheetOp → List (List Cell)
  | SheetOp.getColA _ => grid
  | SheetOp.update r vs => writeRows grid (r.startRow - 1) vs

/-- Effect of a sequence of remote operations on the sheet grid. -/
def applySheetOps (grid : List (List Cell)) (ops : List SheetOp) :
    List (List Cell) :=
  ops.foldl applySheetOp grid

/-- The configuration loaded by `load_config`: the two required keys. -/
structure Config where
  accessToken : String
  adAccountId : String
deriving DecidableEq

/-- The JSON body and HTTP status `sync_data` responds with. -/
structure SyncResponse where
  status : String
  message : String
  httpCode : Nat
deriving DecidableEq

/-- The `/sync` handler: run config load, sheets init, fetch, process and
write in order inside one `try`.  Each fallible stage is modelled by an
`Except String` whose error carries `str(e)`; `process_daily_data` is the
in-file total function (it cannot raise).  The first failure short-circuits
into the 500 error response; full success yields the 200 success
response. -/
def sync_data (cfg : Except String Config) (sheetsInit : Except String Unit)
    (fetch : Config → Except String (List AdRecord))
    (write : Dict → Except String Unit) (yesterday : String) : SyncResponse :=
  match cfg with
  | Except.error e => ⟨"error", e, 500⟩
  | Except.ok config =>
    match sheetsInit with
    | Except.error e => ⟨"error", e, 500⟩
    | Except.ok _ =>
      match fetch config with
      | Except.error e => ⟨"error", e, 500⟩
      | Except.ok api_data =>
        match write (process_daily_data yesterday api_data) with
        | Except.error e => ⟨"error", e, 500⟩
        | Except.ok _ => ⟨"success", "Data sync completed", 200⟩

/-- Concrete timestamp after the cutoff date, for instantiations. -/
def tW : DateTime := ⟨2024, 10, 5, 12, 0, 0⟩

/-- Concrete ad record with a non-empty `ad_id`, for instantiations. -/
def adW : AdRecord :=
  ⟨some "A1", some "C", some "N", some (JVal.str "12.5")⟩

/-- Concrete creation-time oracle that always answers `tW`. -/
def lookupW : String → Except FetchError (Option DateTime) :=
  fun _ => Except.ok (some tW)

/-- Concrete single-page chain holding `adW`. -/
def pagesW : List Page := [⟨none, [adW], none⟩]

/-- Concrete two-page chain whose first page carries an error envelope (and
a `paging.next` URL). -/
def pagesErr : List Page :=
  [⟨some "bad request", [], some "next-url"⟩, ⟨none, [], none⟩]

/-- Concrete creation-time response sequence that fails on the first two
attempts and succeeds on every later one. -/
def respsFail2 : Nat → Except String CreationResponse :=
  fun k => if k ≤ 2 then Except.error "timeout" else Except.ok ⟨none, some tW⟩

/-- Concrete creation-time response sequence that always fails. -/
def respsFailAll : Nat → Except String CreationResponse :=
  fun _ => Except.error "timeout"

/-- Concrete page-world sequence for the listing fetch that fails (no
response at all) on the first two attempts and succeeds afterwards. -/
def worldsFail2 : Nat → List Page :=
  fun k => if k ≤ 2 then [] else pagesW

/-- Concrete page-world sequence for the listing fetch that always fails. -/
def worldsFailAll : Nat → List Page := fun _ => []

/-- Concrete processed row, for instantiations. -/
def rowW : Row := ⟨"C", "N", (25 : ℚ) / 2, "2025-10-10", "2025-10-10"⟩

/-- Concrete one-row daily-data dictionary, for instantiations. -/
def dW : Dict := [("2025-10-10", [rowW])]

/-- Concrete daily-data dictionary whose only date has zero rows. -/
def dEmpty : Dict := [("2025-10-10", [])]

/-- Concrete one-row sheet grid whose column A is non-empty. -/
def gridW : List (List Cell) :=
  [[Cell.str "2025-10-09", Cell.str "c", Cell.str "n", Cell.num 0,
    Cell.str "2025-10-09", Cell.str "2025-10-09"]]

/-- Number of non-empty rows of column A of a grid (the quantity the
claimed `count(non-empty rows) + 1` formula refers to, as opposed to the
length of the column-A read response, which also counts embedded blank
rows). -/
def nonEmptyColA (grid : List (List Cell)) : Nat :=
  (grid.filter (fun r => !(firstCell r).isEmpty)).length

/-- Concrete sheet grid whose column A has two non-empty rows separated by
a blank row (rows 1 and 3 non-empty, row 2 blank). -/
def gridGap : List (List Cell) :=
  [[Cell.str "a"], [], [Cell.str "b"]]

/-- Concrete fetch stage that succeeds with one record, for
instantiations. -/
def fetchW : Config → Except String (List AdRecord) :=
  fun _ => Except.ok [adW]

/-- Concrete write stage that raises, for instantiations. -/
def writeFailW : Dict → Except String Unit :=
  fun _ => Except.error "sheets write failed"

theorem writeRows_nil_zero (vs : List (List Cell)) : writeRows [] 0 vs = vs := by
  induction vs with
  | nil => simp [writeRows]
  | cons v vs ih => rw [writeRows.eq_def]; simp [ih]

theorem writeRows_at_length (g : List (List Cell)) :
    ∀ vs, writeRows g g.length vs = g ++ vs := by
  induction g with
  | nil => intro vs; simpa using writeRows_nil_zero vs
  | cons r g ih =>
    intro vs
    cases vs with
    | nil => simp [writeRows]
    | cons v vs => rw [writeRows.eq_def]; simp [ih]

theorem dropWhile_eq_self_of {α : Type} (p : α → Bool) (l : List α)
    (h : ∀ x ∈ l, p x = false) : l.dropWhile p = l := by
  cases l with
  | nil => rfl
  | cons a l => simp [List.dropWhile, h a (List.mem_cons_self a l)]

theorem colAResponse_of_full (grid : List (List Cell))
    (h : ∀ r ∈ grid, firstCell r ≠ []) :
    colAResponse grid = grid.map firstCell := by
  unfold colAResponse dropTrailingEmpty
  rw [dropWhile_eq_self_of]
  · simp
  · intro x hx
    simp only [List.mem_reverse, List.mem_map] at hx
    obtain ⟨r, hr, hrx⟩ := hx
    simpa [hrx.symm] using h r hr

theorem get_next_empty_row_of_full (grid : List (List Cell))
    (h : ∀ r ∈ grid, firstCell r ≠ []) :
    get_next_empty_row grid = grid.length + 1 := by
  unfold get_next_empty_row
  rw [colAResponse_of_full grid h, List.length_map]

theorem processStep_loop (y : String) (rows : List Row) (hrows : rows ≠ [])
    (l : List AdRecord) :
    List.foldl (processStep y) [(y, rows)] l =
      [(y, rows ++ l.map (processEntry y))] := by
  induction l generalizing rows with
  | nil => simp
  | cons e l ih =>
    have hstep : processStep y [(y, rows)] e =
        [(y, rows ++ [processEntry y e])] := by
      unfold processStep
      simp [dget, dset, List.isEmpty_iff, hrows]
    rw [List.foldl_cons, hstep, ih (rows ++ [processEntry y e]) (by simp)]
    simp

theorem filterAds_eq_filter (lookup : String → Except FetchError (Option DateTime))
    (htot : ∀ id, ∃ o, lookup id = Except.ok o) (ads : List AdRecord) :
    filterAds lookup ads = Except.ok (ads.filter (keepB lookup)) := by
  induction ads with
  | nil => simp [filterAds]
  | cons ad rest ih =>
    rw [filterAds, List.filter_cons]
    cases had : ad.ad_id with
    | none => simpa [keepB, had] using ih
    | some id =>
      by_cases hid : id = ""
      · simpa [keepB, had, hid] using ih
      · obtain ⟨o, ho⟩ := htot id
        cases o with
        | none => simpa [keepB, had, hid, ho] using ih
        | some dt =>
          cases hleb : DateTime.leb CUTOFF_DATE dt with
          | false => simpa [keepB, had, hid, ho, hleb] using ih
          | true => simp [keepB, had, hid, ho, hleb, ih]

theorem fetchGo_clean (lookup : String → Except FetchError (Option DateTime))
    (htot : ∀ id, ∃ o, lookup id = Except.ok o) :
    ∀ (pages : List Page) (acc : List AdRecord), isChain pages = true →
      (∀ p ∈ pages, p.error = none) →
      fetchGo lookup pages acc =
        (Except.ok (acc ++ (pages.flatMap Page.data).filter (keepB lookup)),
         pages.length) := by
  intro pages
  induction pages with
  | nil => intro acc hchain _; simp [isChain] at hchain
  | cons p rest ih =>
    intro acc hchain hclean
    have herr : p.error = none := hclean p (List.mem_cons_self p rest)
    have hfilter := filterAds_eq_filter lookup htot p.data
    cases rest with
    | nil =>
      have hnext : p.next = none := by
        simpa [isChain, Option.isNone_iff_eq_none] using hchain
      simp [fetchGo, herr, hfilter, hnext]
    | cons q rest' =>
      rw [isChain] at hchain
      simp only [Bool.and_eq_true] at hchain
      obtain ⟨nxt, hnext⟩ := Option.isSome_iff_exists.mp hchain.1
      have hrest := ih (acc ++ p.data.filter (keepB lookup)) hchain.2
        (fun r hr => hclean r (List.mem_cons_of_mem p hr))
      rw [fetchGo.eq_def]
      simp only [herr, hfilter, hnext]
      rw [hrest]
      simp [List.filter_append, List.append_assoc]

theorem fetchGo_err (lookup : String → Except FetchError (Option DateTime))
    (htot : ∀ id, ∃ o, lookup id = Except.ok o) :
    ∀ (pages : List Page) (acc : List AdRecord), isChain pages = true →
      (∃ p ∈ pages, p.error ≠ none) →
      ∃ msg, (fetchGo lookup pages acc).1 =
        Except.error (FetchError.apiError msg) := by
  intro pages
  induction pages with
  | nil => intro acc hchain _; simp [isChain] at hchain
  | cons p rest ih =>
    intro acc hchain herr
    cases hperr : p.error with
    | some msg => exact ⟨msg, by simp [fetchGo, hperr]⟩
    | none =>
      have hfilter := filterAds_eq_filter lookup htot p.data
      obtain ⟨r, hr, hrerr⟩ := herr
      have hrrest : r ∈ rest := by
        rcases List.mem_cons.mp hr with h | h
        · exact absurd (h ▸ hperr) hrerr
        · exact h
      cases rest with
      | nil => cases hrrest
      | cons q rest' =>
        rw [isChain] at hchain
        simp only [Bool.and_eq_true] at hchain
        obtain ⟨nxt, hnext⟩ := Option.isSome_iff_exists.mp hchain.1
        obtain ⟨msg, hmsg⟩ := ih (acc ++ p.data.filter (keepB lookup))
          hchain.2 ⟨r, hrrest, hrerr⟩
        refine ⟨msg, ?_⟩
        rw [fetchGo.eq_def]
        simp only [hperr, hfilter, hnext]
        simpa using hmsg

theorem process_daily_data_eq (y : String) (api_data : List AdRecord) :
    process_daily_data y api_data =
      if api_data.isEmpty then [] else [(y, api_data.map (processEntry y))] := by
  cases api_data with
  | nil => rfl
  | cons e l =>
    unfold process_daily_data
    have hstep : processStep y [] e = [(y, [processEntry y e])] := by
      unfold processStep
      simp [dget, dset]
    rw [List.foldl_cons, hstep, processStep_loop y [processEntry y e] (by simp) l]
    simp

/-- Claim C10: the processor emits exactly one row per input record, in
input order, all under the single target-date key; an empty input yields
the empty dictionary (no key at all) rather than the target date mapped to
an empty list. -/
theorem claim_C10_processor_shape (y : String) (api_data : List AdRecord) :
    process_daily_data y api_data =
      (if api_data.isEmpty then []
       else [(y, api_data.map (processEntry y))]) :=
  process_daily_data_eq y api_data

/-- Claim C9: when the row set built from the processed data is empty, the
Sheet Writer performs no remote operation at all — neither the column-A
read nor the range update — and the spreadsheet is left unchanged. -/
theorem claim_C9_empty_noop (grid : List (List Cell)) (d : Dict)
    (h : rowsFromDict d = []) :
    write_to_sheets grid d = [] ∧
    applySheetOps grid (write_to_sheets grid d) = grid := by
  constructor
  · simp [write_to_sheets, h]
  · simp [write_to_sheets, h, applySheetOps]

/-- Witness for C9 at a dictionary whose only date has zero rows and a
non-empty sheet. -/
theorem claim_C9_witness :
    write_to_sheets gridW dEmpty = [] ∧
    applySheetOps gridW (write_to_sheets gridW dEmpty) = gridW :=
  claim_C9_empty_noop gridW dEmpty (by decide)

/-- Counterexample to claim C5: on a sheet whose column A has 2 non-empty
rows but a blank row between them (rows 1 and 3 non-empty), the column-A
read reports 3 rows, so the code computes the next free row as
`len(values) + 1 = 4`, not `count(non-empty) + 1 = 3` — and the single row
written goes to sheet row 4 (range `Sheet1!A4:F5`), not row 3 as the claim
asserts. -/
theorem claim_C5_counterexample :
    nonEmptyColA gridGap = 2 ∧
    get_next_empty_row gridGap ≠ nonEmptyColA gridGap + 1 ∧
    ∃ vs, write_to_sheets gridGap dW =
      [SheetOp.getColA "Sheet1", SheetOp.update ⟨"Sheet1", 4, 5⟩ vs] :=
  ⟨by decide, by decide, ⟨rowsFromDict dW, rfl⟩⟩

/-- Claim C5 as amended: on a sheet whose column A is a contiguous block of
`k` non-empty rows with no blank row among or below them, writing `n > 0`
rows computes the next free row as `k + 1` and places the `n` value rows in
sheet rows `k + 1` through `k + n` inclusive (1-based row `k + 1 + i` is
0-based index `k + i`).  In general the code takes the length of the
column-A read response plus one — one past the last non-empty row — which
equals `count(non-empty rows) + 1` only in the gap-free case. -/
theorem claim_C5_row_placement (grid : List (List Cell)) (d : Dict) (k n : Nat)
    (hk : grid.length = k)
    (hfull : ∀ r ∈ grid, firstCell r ≠ [])
    (hn : (rowsFromDict d).length = n) (hpos : 0 < n) :
    get_next_empty_row grid = k + 1 ∧
    applySheetOps grid (write_to_sheets grid d) = grid ++ rowsFromDict d ∧
    ∀ i < n, (applySheetOps grid (write_to_sheets grid d))[k + i]? =
      (rowsFromDict d)[i]? := by
  have hnext : get_next_empty_row grid = k + 1 := by
    rw [get_next_empty_row_of_full grid hfull, hk]
  have hne : rowsFromDict d ≠ [] := by
    intro h0
    rw [h0] at hn
    simp at hn
    omega
  have happ : applySheetOps grid (write_to_sheets grid d) =
      grid ++ rowsFromDict d := by
    simp only [write_to_sheets, if_neg hne, applySheetOps, List.foldl_cons,
      List.foldl_nil, applySheetOp, hnext]
    rw [Nat.add_sub_cancel, ← hk, writeRows_at_length]
  refine ⟨hnext, happ, ?_⟩
  intro i hi
  rw [happ, List.getElem?_append_right (by omega)]
  congr 1
  omega

/-- Witness for C5 at a one-row sheet and a one-row dictionary. -/
theorem claim_C5_witness :
    get_next_empty_row gridW = 1 + 1 ∧
    applySheetOps gridW (write_to_sheets gridW dW) = gridW ++ rowsFromDict dW ∧
    ∀ i < 1, (applySheetOps gridW (write_to_sheets gridW dW))[1 + i]? =
      (rowsFromDict dW)[i]? :=
  claim_C5_row_placement gridW dW 1 1 (by decide) (by decide) (by decide)
    (by decide)

/-- Counterexample to claim C4: writing one row to an empty sheet issues the
update against range `Sheet1!A1:F2`, which spans 2 sheet rows while only 1
value row is written — the A1 range does not span exactly `row_count`
rows. -/
theorem claim_C4_counterexample :
    write_to_sheets ([] : List (List Cell)) dW =
      [SheetOp.getColA "Sheet1",
       SheetOp.update ⟨"Sheet1", 1, 2⟩ (rowsFromDict dW)] ∧
    (rowsFromDict dW).length = 1 ∧
    rangeRowSpan ⟨"Sheet1", 1, 2⟩ ≠ (rowsFromDict dW).length :=
  ⟨rfl, rfl, by decide⟩

/-- Claim C4 as amended: the writer performs exactly one bulk range update,
with the rows verbatim as its values, against the A1 range
`{tab}!A{next_row}:F{next_row + row_count}` — a range that spans
`row_count + 1` sheet rows (rows `next_row` through `next_row + row_count`
inclusive), one more than the number of value rows written. -/
theorem claim_C4_amended (grid : List (List Cell)) (d : Dict)
    (h : rowsFromDict d ≠ []) :
    write_to_sheets grid d =
      [SheetOp.getColA "Sheet1",
       SheetOp.update
         ⟨"Sheet1", get_next_empty_row grid,
          get_next_empty_row grid + (rowsFromDict d).length⟩
         (rowsFromDict d)] ∧
    rangeRowSpan
        ⟨"Sheet1", get_next_empty_row grid,
         get_next_empty_row grid + (rowsFromDict d).length⟩ =
      (rowsFromDict d).length + 1 := by
  constructor
  · simp [write_to_sheets, h]
  · simp [rangeRowSpan]
    omega

/-- Witness for the amended C4 at an empty sheet and a one-row
dictionary. -/
theorem claim_C4_witness :
    write_to_sheets ([] : List (List Cell)) dW =
      [SheetOp.getColA "Sheet1",
       SheetOp.update
         ⟨"Sheet1", get_next_empty_row [],
          get_next_empty_row [] + (rowsFromDict dW).length⟩
         (rowsFromDict dW)] ∧
    rangeRowSpan
        ⟨"Sheet1", get_next_empty_row [],
         get_next_empty_row [] + (rowsFromDict dW).length⟩ =
      (rowsFromDict dW).length + 1 :=
  claim_C4_amended [] dW (by decide)

/-- Claim C6: the processor never raises on the spend field — its value
function is total — and for every record the output spend is the parsed
number when `float()` succeeds on the record's spend value, and `0` when
the value is JSON null, an unparseable string, or the key is missing
(e.g. `"N/A"` fails to parse while `"12.5"` parses to 12.5). -/
theorem claim_C6_spend_coercion (y : String) (e : AdRecord) :
    ((processEntry y e).spend =
      match e.spend with
      | none => 0
      | some JVal.null => 0
      | some (JVal.str s) => (parsePyFloat s).getD 0
      | some (JVal.num q) => q) ∧
    parsePyFloat "N/A" = none ∧
    parsePyFloat "12.5" = some ((25 : ℚ) / 2) := by
  refine ⟨?_, rfl, ?_⟩
  · cases he : e.spend with
    | none => simp [processEntry, he, pyFloat]
    | some v => cases v <;> simp [processEntry, he, pyFloat]
  · have h : parsePyFloat "12.5" =
        some (((digitsToNat ['1', '2'] : ℚ) +
          (digitsToNat ['5'] : ℚ) / 10 ^ 1) * 10 ^ (0 : ℤ)) := rfl
    rw [h, show digitsToNat ['1', '2'] = 12 from rfl,
      show digitsToNat ['5'] = 5 from rfl]
    norm_num

/-- Claim C1: in a successful run of `fetch_api_data` over a chain of
error-free pages with a creation-time oracle that never raises, an ad
record returned by the listing with a non-empty `ad_id` is included in the
result if and only if its creation-time lookup returns a non-absent
timestamp on or after `CUTOFF_DATE` (2024-09-01); ads whose lookup returns
absent (error envelope or missing `created_time`) are excluded. -/
theorem claim_C1_inclusion_iff
    (lookup : String → Except FetchError (Option DateTime)) (pages : List Page)
    (res : List AdRecord)
    (hchain : isChain pages = true)
    (hclean : ∀ p ∈ pages, p.error = none)
    (htot : ∀ id, ∃ o, lookup id = Except.ok o)
    (hrun : (fetch_api_data lookup pages).1 = Except.ok res) :
    ∀ ad ∈ pages.flatMap Page.data, ∀ id, ad.ad_id = some id → id ≠ "" →
      (ad ∈ res ↔
        ∃ t, lookup id = Except.ok (some t) ∧
          DateTime.leb CUTOFF_DATE t = true) := by
  rw [fetch_api_data, fetchGo_clean lookup htot pages [] hchain hclean] at hrun
  simp only [List.nil_append] at hrun
  have hres : res = (pages.flatMap Page.data).filter (keepB lookup) := by
    cases hrun
    rfl
  subst hres
  intro ad had id hid hne
  constructor
  · intro hmem
    have hkeep := (List.mem_filter.mp hmem).2
    simp only [keepB, hid] at hkeep
    rw [if_neg hne] at hkeep
    cases hlk : lookup id with
    | error e => rw [hlk] at hkeep; simp at hkeep
    | ok o =>
      cases o with
      | none => rw [hlk] at hkeep; simp at hkeep
      | some t =>
        rw [hlk] at hkeep
        exact ⟨t, rfl, hkeep⟩
  · rintro ⟨t, hlk, hleb⟩
    refine List.mem_filter.mpr ⟨had, ?_⟩
    simp only [keepB, hid]
    rw [if_neg hne, hlk]
    exact hleb

/-- Witness for C1: a one-page chain with one ad whose lookup returns a
timestamp after the cutoff; the iff holds there. -/
theorem claim_C1_witness :
    adW ∈ [adW] ↔
      ∃ t, lookupW "A1" = Except.ok (some t) ∧
        DateTime.leb CUTOFF_DATE t = true :=
  claim_C1_inclusion_iff lookupW pagesW [adW] (by decide) (by decide)
    (fun _ => ⟨some tW, rfl⟩) rfl adW (by decide) "A1" rfl (by decide)

/-- Claim C2: if any page response of the (single-pass) paged listing fetch
carries an error envelope, `fetch_api_data` signals a `FacebookAdsError`
for that call: its outcome is an error, which carries no records — no
partial result from earlier pages or earlier items is returned. -/
theorem claim_C2_error_envelope_fatal
    (lookup : String → Except FetchError (Option DateTime)) (pages : List Page)
    (hchain : isChain pages = true)
    (htot : ∀ id, ∃ o, lookup id = Except.ok o)
    (herr : ∃ p ∈ pages, p.error ≠ none) :
    ∃ msg, (fetch_api_data lookup pages).1 =
      Except.error (FetchError.apiError msg) :=
  fetchGo_err lookup htot pages [] hchain herr

/-- Witness for C2 at a two-page chain whose first page carries an error
envelope. -/
theorem claim_C2_witness :
    ∃ msg, (fetch_api_data lookupW pagesErr).1 =
      Except.error (FetchError.apiError msg) :=
  claim_C2_error_envelope_fatal lookupW pagesErr (by decide)
    (fun _ => ⟨some tW, rfl⟩) (by decide)

/-- Counterexample to claim C8: a two-page chain whose first page both
supplies `paging.next` and carries an error envelope makes the single pass
abort after 1 page request, not after 2 — so the pass does not always issue
exactly as many requests as there are pages in the chain. -/
theorem claim_C8_counterexample :
    isChain pagesErr = true ∧
    (fetch_api_data lookupW pagesErr).2 ≠ pagesErr.length :=
  ⟨by decide, by decide⟩

/-- Claim C8 as amended: over a finite chain of pages in which every page
except the last supplies `paging.next` and the last omits it, provided no
page body carries an error envelope and no creation-time lookup raises, a
single (non-retried) pass of the fetch loop terminates after issuing
exactly one page request per page of the chain. -/
theorem claim_C8_amended
    (lookup : String → Except FetchError (Option DateTime)) (pages : List Page)
    (hchain : isChain pages = true)
    (hclean : ∀ p ∈ pages, p.error = none)
    (htot : ∀ id, ∃ o, lookup id = Except.ok o) :
    (fetch_api_data lookup pages).2 = pages.length := by
  rw [fetch_api_data, fetchGo_clean lookup htot pages [] hchain hclean]

/-- Witness for the amended C8 at a clean one-page chain. -/
theorem claim_C8_witness :
    (fetch_api_data lookupW pagesW).2 = pagesW.length :=
  claim_C8_amended lookupW pagesW (by decide) (by decide)
    (fun _ => ⟨some tW, rfl⟩)

/-- Claim C7: for both retry-decorated operations — the creation-time
lookup and the paged listing fetch — if the underlying body fails on
attempts 1 and 2 and succeeds on attempt 3, the overall call succeeds and
the body runs exactly 3 times; if the body fails on every attempt, the
overall call fails after exactly 3 invocations, surfacing the error of the
final attempt. -/
theorem claim_C7_retry_bound
    (resps resps' : Nat → Except String CreationResponse)
    (lookup lookup' : String → Except FetchError (Option DateTime))
    (worlds worlds' : Nat → List Page)
    (a1 a2 : String) (v : Option DateTime)
    (b1 b2 : FetchError) (l : List AdRecord)
    (fa : Nat → String) (fb : Nat → FetchError)
    (hA1 : fetch_ad_creation_time_once (resps 1) = Except.error a1)
    (hA2 : fetch_ad_creation_time_once (resps 2) = Except.error a2)
    (hA3 : fetch_ad_creation_time_once (resps 3) = Except.ok v)
    (hB1 : (fetchGo lookup (worlds 1) []).1 = Except.error b1)
    (hB2 : (fetchGo lookup (worlds 2) []).1 = Except.error b2)
    (hB3 : (fetchGo lookup (worlds 3) []).1 = Except.ok l)
    (hA' : ∀ k, fetch_ad_creation_time_once (resps' k) = Except.error (fa k))
    (hB' : ∀ k, (fetchGo lookup' (worlds' k) []).1 = Except.error (fb k)) :
    fetch_ad_creation_time resps = (Except.ok v, 3) ∧
    fetch_api_data_retried lookup worlds = (Except.ok l, 3) ∧
    fetch_ad_creation_time resps' = (Except.error (fa 3), 3) ∧
    fetch_api_data_retried lookup' worlds' = (Except.error (fb 3), 3) := by
  refine ⟨?_, ?_, ?_, ?_⟩
  · simp [fetch_ad_creation_time, retryCall, MAX_RETRIES, retryAux,
      hA1, hA2, hA3]
  · simp [fetch_api_data_retried, retryCall, MAX_RETRIES, retryAux,
      hB1, hB2, hB3]
  · simp [fetch_ad_creation_time, retryCall, MAX_RETRIES, retryAux,
      hA' 1, hA' 2, hA' 3]
  · simp [fetch_api_data_retried, retryCall, MAX_RETRIES, retryAux,
      hB' 1, hB' 2, hB' 3]

/-- Witness for C7: response sequences that fail twice then succeed, and
sequences that always fail, for both decorated operations. -/
theorem claim_C7_witness :
    fetch_ad_creation_time respsFail2 = (Except.ok (some tW), 3) ∧
    fetch_api_data_retried lookupW worldsFail2 = (Except.ok [adW], 3) ∧
    fetch_ad_creation_time respsFailAll = (Except.error "timeout", 3) ∧
    fetch_api_data_retried lookupW worldsFailAll =
      (Except.error (FetchError.transport "connection failed"), 3) :=
  claim_C7_retry_bound respsFail2 respsFailAll lookupW lookupW
    worldsFail2 worldsFailAll "timeout" "timeout" (some tW)
    (FetchError.transport "connection failed")
    (FetchError.transport "connection failed") [adW]
    (fun _ => "timeout") (fun _ => FetchError.transport "connection failed")
    rfl rfl rfl rfl rfl rfl (fun _ => rfl) (fun _ => rfl)

/-- Claim C3: the `/sync` handler catches every pipeline failure at the
HTTP boundary: it answers 200 with the success body exactly when every
fallible stage succeeds; when a stage fails, it answers 500 with the error
body whose message is that failing stage's exception text (the text of the
first stage to fail, since the pipeline short-circuits); and it never
answers anything other than these two responses. -/
theorem claim_C3_sync_boundary (cfg : Except String Config)
    (sheetsInit : Except String Unit)
    (fetch : Config → Except String (List AdRecord))
    (write : Dict → Except String Unit) (y : String) :
    (sync_data cfg sheetsInit fetch write y =
        ⟨"success", "Data sync completed", 200⟩ ↔
      ∃ c, cfg = Except.ok c ∧ sheetsInit = Except.ok () ∧
        ∃ a, fetch c = Except.ok a ∧
          write (process_daily_data y a) = Except.ok ()) ∧
    (∀ e, cfg = Except.error e →
      sync_data cfg sheetsInit fetch write y = ⟨"error", e, 500⟩) ∧
    (∀ c e, cfg = Except.ok c → sheetsInit = Except.error e →
      sync_data cfg sheetsInit fetch write y = ⟨"error", e, 500⟩) ∧
    (∀ c e, cfg = Except.ok c → sheetsInit = Except.ok () →
      fetch c = Except.error e →
      sync_data cfg sheetsInit fetch write y = ⟨"error", e, 500⟩) ∧
    (∀ c a e, cfg = Except.ok c → sheetsInit = Except.ok () →
      fetch c = Except.ok a →
      write (process_daily_data y a) = Except.error e →
      sync_data cfg sheetsInit fetch write y = ⟨"error", e, 500⟩) ∧
    (sync_data cfg sheetsInit fetch write y =
        ⟨"success", "Data sync completed", 200⟩ ∨
      ∃ e, sync_data cfg sheetsInit fetch write y = ⟨"error", e, 500⟩) := by
  rcases cfg with e | c
  · simp [sync_data]
  · rcases sheetsInit with e | u
    · simp [sync_data]
    · rcases hf : fetch c with e | a
      · simp [sync_data, hf]
        constructor
        · intro c' e' hc hfe
          subst hc
          rw [hf] at hfe
          cases hfe
          rfl
        · intro c' a' e' hc hfa _
          subst hc
          rw [hf] at hfa
          cases hfa
      · rcases hw : write (process_daily_data y a) with e | w
        · simp [sync_data, hf, hw]
          constructor
          · intro c' e' hc hfe
            subst hc
            rw [hf] at hfe
            cases hfe
          · intro c' a' e' hc hfa hwr
            subst hc
            rw [hf] at hfa
            cases hfa
            rw [hw] at hwr
            cases hwr
            rfl
        · simp [sync_data, hf, hw]
          constructor
          · intro c' e' hc hfe
            subst hc
            rw [hf] at hfe
            cases hfe
          · intro c' a' e' hc hfa hwr
            subst hc
            rw [hf] at hfa
            cases hfa
            rw [hw] at hwr
            cases hwr

/-- Witness for C3: a run whose write stage raises answers 500 with that
stage's exception text as the message. -/
theorem claim_C3_witness :
    sync_data (Except.ok ⟨"T", "123"⟩) (Except.ok ()) fetchW writeFailW
        "2025-10-10" =
      ⟨"error", "sheets write failed", 500⟩ :=
  (claim_C3_sync_boundary (Except.ok ⟨"T", "123"⟩) (Except.ok ()) fetchW
      writeFailW "2025-10-10").2.2.2.2.1 ⟨"T", "123"⟩ [adW]
    "sheets write failed" rfl rfl rfl rfl
